import Mathlib

/-!
Verification of the kling SDK task-lifecycle and polling engine
(src/kling/base.py, src/kling/exceptions.py, src/kling/client.py,
src/kling/api/image_to_video.py) against its specification.

The Python code is shallowly embedded: floats used for intervals and
timeouts become rationals, the wall clock is idealized (a status fetch
takes no time, a sleep of length i advances elapsed time by exactly i),
and the unbounded while loop is run on explicit fuel, reporting how many
fetches were performed, the total suspension time, and whether an
outcome was reached.
-/

/-- A task snapshot as consumed by the polling loop in base.py.  The
module kling.models.common that declares TaskResponse is not present in
the source tree; the fields below are exactly the ones the polling loop
reads (task_status, task_status_msg) together with the task id that a
snapshot carries per the spec data model. -/
structure TaskResponse where
  task_id : String
  task_status : String
  task_status_msg : Option String
deriving Repr, DecidableEq

/-- The payload of KlingAPIError from src/kling/exceptions.py: message,
numeric code and request_id. -/
structure KlingAPIError where
  message : String
  code : Int
  request_id : String
deriving Repr, DecidableEq

/-- Python truthiness applied by the expression m or d on an optional
string: None and the empty string are falsy, so both yield d. -/
def pyOrString (m : Option String) (d : String) : String :=
  match m with
  | none => d
  | some s => if s = "" then d else s

/-- Possible ways one call to wait_for_completion can end, mirroring
base.py lines 164 to 184: return the task, raise KlingAPIError (the
failed-status branch), raise KlingTimeoutError (modelled with the task
id and timeout value that its message interpolates), or raise
ValueError from time.sleep on a negative interval. -/
inductive PollOutcome where
  | completed (t : TaskResponse)
  | apiError (e : KlingAPIError)
  | timedOut (task_id : String) (timeout : ℚ)
  | sleepValueError
deriving Repr, DecidableEq

/-- Result of running the polling loop on a given amount of fuel: the
number of fetches performed, the total time spent sleeping, and the
outcome if one was reached (none means the fuel ran out with the loop
still going). -/
structure PollRun where
  fetches : ℕ
  slept : ℚ
  outcome : Option PollOutcome
deriving Repr, DecidableEq

/-- One-to-one embedding of the while loop of
BaseAPIClient.wait_for_completion (base.py lines 162 to 184).  The
counter n is the number of fetches already performed, slept is the
elapsed time so far (fetches are idealized as instantaneous, so elapsed
equals total sleep time).  Branch order follows the source: succeed
check, failed check, timeout check, then the sleep, which raises
ValueError when the interval is negative. -/
def waitPoll (get_task : ℕ → TaskResponse) (task_id : String)
    (poll_interval timeout : ℚ) : ℕ → ℕ → ℚ → PollRun
  | 0, n, slept => ⟨n, slept, none⟩
  | fuel + 1, n, slept =>
    if (get_task n).task_status = "succeed" then
      ⟨n + 1, slept, some (.completed (get_task n))⟩
    else if (get_task n).task_status = "failed" then
      ⟨n + 1, slept,
        some (.apiError ⟨pyOrString (get_task n).task_status_msg "Task failed", -1, ""⟩)⟩
    else if timeout ≤ slept then
      ⟨n + 1, slept, some (.timedOut task_id timeout)⟩
    else if poll_interval < 0 then
      ⟨n + 1, slept, some .sleepValueError⟩
    else
      waitPoll get_task task_id poll_interval timeout fuel (n + 1)
        (slept + poll_interval)

/-- BaseAPIClient.wait_for_completion: run the loop from zero fetches
and zero elapsed time. -/
def wait_for_completion (get_task : ℕ → TaskResponse) (task_id : String)
    (poll_interval timeout : ℚ) (fuel : ℕ) : PollRun :=
  waitPoll get_task task_id poll_interval timeout fuel 0 0

/-- The loop body of BaseAPIClient.wait_for_completion_async (base.py
lines 212 to 232), textually identical to the synchronous loop apart
from awaiting the fetch and the sleep. -/
def waitPollAsync (get_task : ℕ → TaskResponse) (task_id : String)
    (poll_interval timeout : ℚ) : ℕ → ℕ → ℚ → PollRun
  | 0, n, slept => ⟨n, slept, none⟩
  | fuel + 1, n, slept =>
    if (get_task n).task_status = "succeed" then
      ⟨n + 1, slept, some (.completed (get_task n))⟩
    else if (get_task n).task_status = "failed" then
      ⟨n + 1, slept,
        some (.apiError ⟨pyOrString (get_task n).task_status_msg "Task failed", -1, ""⟩)⟩
    else if timeout ≤ slept then
      ⟨n + 1, slept, some (.timedOut task_id timeout)⟩
    else if poll_interval < 0 then
      ⟨n + 1, slept, some .sleepValueError⟩
    else
      waitPollAsync get_task task_id poll_interval timeout fuel (n + 1)
        (slept + poll_interval)

/-- BaseAPIClient.wait_for_completion_async. -/
def wait_for_completion_async (get_task : ℕ → TaskResponse) (task_id : String)
    (poll_interval timeout : ℚ) (fuel : ℕ) : PollRun :=
  waitPollAsync get_task task_id poll_interval timeout fuel 0 0

/-- Embedding of the parsed JSON dictionary that
BaseAPIClient._handle_response inspects: the three top-level keys it
reads, each optional because the Python code accesses them with get and
a default. -/
structure ResponseDict where
  code : Option Int
  message : Option String
  request_id : Option String
deriving Repr, DecidableEq

/-- Outcome of _handle_response: either the parsed dictionary is
returned, or a KlingAPIError is raised. -/
inductive HandleResult where
  | ok (d : ResponseDict)
  | raised (e : KlingAPIError)
deriving Repr, DecidableEq

/-- Embedding of BaseAPIClient._handle_response (base.py lines 59 to
78).  The argument none models a body on which response.json() raises,
in which case the source raises KlingAPIError with the fixed message,
code -1 and empty request id.  Otherwise, when the code key (default 0)
is nonzero the source raises KlingAPIError built from the dictionary
with defaults, and when it is zero the dictionary is returned. -/
def handle_response (body : Option ResponseDict) : HandleResult :=
  match body with
  | none => .raised ⟨"Invalid JSON response from API", -1, ""⟩
  | some d =>
    if d.code.getD 0 ≠ 0 then
      .raised ⟨d.message.getD "Unknown error", d.code.getD (-1), d.request_id.getD ""⟩
    else
      .ok d

/-- Image input object from kling.models.video: a wrapper around one
image URL or Base64 string. -/
structure ImageInput where
  image : String
deriving Repr, DecidableEq

/-- The union type accepted for each element of the images and
image_list arguments of ImageToVideoAPI.create: a bare string, a
dictionary with an image key, or an ImageInput object. -/
inductive ImageArg where
  | str (s : String)
  | dict (image : String)
  | inp (i : ImageInput)
deriving Repr, DecidableEq

/-- The normalization loop of ImageToVideoAPI._create_multi_image
(image_to_video.py lines 112 to 119). -/
def normalizeImage : ImageArg → ImageInput
  | .str s => ⟨s⟩
  | .dict s => ⟨s⟩
  | .inp i => i

/-- Python truthiness of an optional list argument: None and the empty
list are falsy. -/
def pyTruthyList (o : Option (List ImageArg)) : Bool :=
  match o with
  | some (_ :: _) => true
  | _ => false

/-- The Python expression images or image_list: yields images when
truthy, else image_list whatever it is. -/
def pyOrList (a b : Option (List ImageArg)) : Option (List ImageArg) :=
  if pyTruthyList a then a else b

/-- The single-image submission endpoint of ImageToVideoAPI. -/
def single_endpoint : String := "/v1/videos/image2video"

/-- The multi-image submission endpoint of ImageToVideoAPI. -/
def multi_endpoint : String := "/v1/videos/multi-image2video"

/-- The two request body shapes ImageToVideoAPI.create can construct:
ImageToVideoRequest with an optional image field (omitted from the
serialized body when absent, by exclude_none), or
MultiImageToVideoRequest with a mandatory image_list of image
objects. -/
inductive I2VBody where
  | single (image : Option String)
  | multi (image_list : List ImageInput)
deriving Repr, DecidableEq

/-- Embedding of the routing performed by ImageToVideoAPI.create
(image_to_video.py lines 64 to 72): compute images or image_list; if
the result is truthy take the multi-image path, normalizing every
element to an ImageInput and building a MultiImageToVideoRequest whose
image_list field pydantic constrains to length 1 to 4 (none models the
pydantic ValidationError outside that range); otherwise take the
single-image path with the image argument.  The result pairs the
endpoint posted to with the constructed body shape. -/
def i2v_create (image : Option String) (images image_list : Option (List ImageArg)) :
    Option (String × I2VBody) :=
  if pyTruthyList (pyOrList images image_list) then
    if 1 ≤ ((pyOrList images image_list).getD []).length
        ∧ ((pyOrList images image_list).getD []).length ≤ 4 then
      some (multi_endpoint,
        .multi (((pyOrList images image_list).getD []).map normalizeImage))
    else
      none
  else
    some (single_endpoint, .single image)

/-- Resource state of BaseAPIClient: whether each of the two httpx
clients created in the constructor (base.py lines 38 and 39) is still
open. -/
structure BaseAPIClient where
  sync_client_open : Bool
  async_client_open : Bool
deriving Repr, DecidableEq

/-- The constructor creates both HTTP clients. -/
def BaseAPIClient.mk_open : BaseAPIClient := ⟨true, true⟩

/-- BaseAPIClient.close (base.py lines 234 to 236): closes only
self underscore client, the blocking one. -/
def BaseAPIClient.close (c : BaseAPIClient) : BaseAPIClient :=
  { c with sync_client_open := false }

/-- BaseAPIClient.close_async (base.py lines 238 to 240): closes only
the non-blocking client. -/
def BaseAPIClient.close_async (c : BaseAPIClient) : BaseAPIClient :=
  { c with async_client_open := false }

/-- KlingClient.close (client.py lines 95 to 97) delegates to the base
client close. -/
def KlingClient.close (c : BaseAPIClient) : BaseAPIClient := c.close

/-- A stream of fetches that always reports a non-terminal status. -/
def pendStream : ℕ → TaskResponse := fun _ => ⟨"task-1", "processing", none⟩

/-- A stream whose fetches always report an unrecognized status
string. -/
def queuedStream : ℕ → TaskResponse := fun _ => ⟨"task-2", "queued", none⟩

/-- A stream whose first fetch already reports the failed status with a
server-supplied message. -/
def failStream : ℕ → TaskResponse := fun _ => ⟨"task-123", "failed", some "boom"⟩

/-- A stream whose fetches always report success. -/
def succStream : ℕ → TaskResponse := fun _ => ⟨"task-3", "succeed", none⟩

/-- Fetch sequence pending, pending, succeed. -/
def seqPPS : ℕ → TaskResponse
  | 0 => ⟨"task-1", "submitted", none⟩
  | 1 => ⟨"task-1", "processing", none⟩
  | _ => ⟨"task-1", "succeed", none⟩

theorem pendStream_nonterminal :
    ∀ m, (pendStream m).task_status ≠ "succeed" ∧ (pendStream m).task_status ≠ "failed" := by
  intro m
  simp [pendStream]

/-- The synchronous and asynchronous loops agree step for step. -/
theorem waitPollAsync_eq (g : ℕ → TaskResponse) (t : String) (i T : ℚ) :
    ∀ fuel n slept, waitPollAsync g t i T fuel n slept = waitPoll g t i T fuel n slept
  | 0, _, _ => rfl
  | fuel + 1, n, slept => by
    simp only [waitPollAsync, waitPoll]
    split_ifs <;> first
      | rfl
      | exact waitPollAsync_eq g t i T fuel (n + 1) (slept + i)

/-- The timeout test of the loop, elapsed at least timeout, phrased on
the fetch counter. -/
theorem timeout_cond_iff (i T : ℚ) (hi : 0 < i) (n : ℕ) :
    T ≤ (n : ℚ) * i ↔ (⌈T / i⌉).toNat ≤ n := by
  rw [Int.toNat_le, Int.ceil_le, div_le_iff₀ hi]
  norm_cast

/-- On a stream that never reaches a terminal status, with a positive
interval, the loop raises the timeout outcome, and the iteration at
which it does is governed by the ceiling of timeout over interval. -/
theorem waitPoll_pending_times_out (g : ℕ → TaskResponse) (t : String) (i T : ℚ)
    (hg : ∀ m, (g m).task_status ≠ "succeed" ∧ (g m).task_status ≠ "failed")
    (hi : 0 < i) :
    ∀ fuel n, max (⌈T / i⌉).toNat n - n < fuel →
      waitPoll g t i T fuel n ((n : ℚ) * i)
        = ⟨max (⌈T / i⌉).toNat n + 1, ((max (⌈T / i⌉).toNat n : ℕ) : ℚ) * i,
            some (.timedOut t T)⟩ := by
  intro fuel
  induction fuel with
  | zero => intro n h; omega
  | succ fuel ih =>
    intro n h
    obtain ⟨h1, h2⟩ := hg n
    simp only [waitPoll]
    rw [if_neg h1, if_neg h2]
    by_cases hcn : (⌈T / i⌉).toNat ≤ n
    · rw [if_pos ((timeout_cond_iff i T hi n).mpr hcn)]
      have hmax : max (⌈T / i⌉).toNat n = n := by omega
      rw [hmax]
    · rw [if_neg (fun hc => hcn ((timeout_cond_iff i T hi n).mp hc)),
        if_neg (not_lt.mpr hi.le)]
      have hstep : (n : ℚ) * i + i = ((n + 1 : ℕ) : ℚ) * i := by push_cast; ring
      rw [hstep, ih (n + 1) (by omega)]
      have hmax : max (⌈T / i⌉).toNat (n + 1) = max (⌈T / i⌉).toNat n := by omega
      rw [hmax]

/-- Helper for the success path: starting anywhere before the first
successful fetch, the loop returns that fetch. -/
theorem waitPoll_success_aux (g : ℕ → TaskResponse) (t : String) (i T : ℚ) (k : ℕ)
    (hk : 0 < k)
    (hpend : ∀ n, n < k - 1 →
      (g n).task_status ≠ "succeed" ∧ (g n).task_status ≠ "failed")
    (hsucc : (g (k - 1)).task_status = "succeed")
    (hT : ∀ n, n < k - 1 → (n : ℚ) * i < T) (hi : 0 ≤ i) :
    ∀ fuel n, n ≤ k - 1 → k - n ≤ fuel →
      waitPoll g t i T fuel n ((n : ℚ) * i)
        = ⟨k, ((k - 1 : ℕ) : ℚ) * i, some (.completed (g (k - 1)))⟩ := by
  intro fuel
  induction fuel with
  | zero => intro n h1 h2; omega
  | succ fuel ih =>
    intro n h1 h2
    by_cases hn : n = k - 1
    · subst hn
      simp only [waitPoll]
      rw [if_pos hsucc]
      have : k - 1 + 1 = k := by omega
      rw [this]
    · have hn' : n < k - 1 := by omega
      obtain ⟨hs1, hs2⟩ := hpend n hn'
      simp only [waitPoll]
      rw [if_neg hs1, if_neg hs2, if_neg (not_le.mpr (hT n hn')),
        if_neg (not_lt.mpr hi)]
      have hstep : (n : ℚ) * i + i = ((n + 1 : ℕ) : ℚ) * i := by push_cast; ring
      rw [hstep]
      exact ih (n + 1) (by omega) (by omega)

/-- C1.  For every fetch sequence whose first k minus 1 fetches are
non-terminal and whose k-th fetch reports success, provided the timeout
budget is not exhausted before the k-th fetch, the interval is
non-negative and the fuel covers k iterations, wait_for_completion
returns the task of the k-th fetch after exactly k fetches with total
suspension exactly (and hence at least) k minus 1 poll intervals, and
the asynchronous variant produces the identical run. -/
theorem wait_for_completion_success (g : ℕ → TaskResponse) (t : String) (i T : ℚ)
    (k fuel : ℕ) (hk : 0 < k)
    (hpend : ∀ n, n < k - 1 →
      (g n).task_status ≠ "succeed" ∧ (g n).task_status ≠ "failed")
    (hsucc : (g (k - 1)).task_status = "succeed")
    (hT : ∀ n, n < k - 1 → (n : ℚ) * i < T) (hi : 0 ≤ i) (hfuel : k ≤ fuel) :
    wait_for_completion g t i T fuel
      = ⟨k, ((k - 1 : ℕ) : ℚ) * i, some (.completed (g (k - 1)))⟩
    ∧ wait_for_completion_async g t i T fuel = wait_for_completion g t i T fuel := by
  have h0 : (0 : ℚ) = ((0 : ℕ) : ℚ) * i := by push_cast; ring
  constructor
  · unfold wait_for_completion
    rw [h0]
    exact waitPoll_success_aux g t i T k hk hpend hsucc hT hi fuel 0 (by omega)
      (by omega)
  · unfold wait_for_completion wait_for_completion_async
    exact waitPollAsync_eq g t i T fuel 0 0

unseal Rat.mul Rat.add in
/-- Witness for C1 on the fetch sequence pending, pending, succeed with
interval 5 and timeout 600. -/
theorem wait_for_completion_success_witness :
    wait_for_completion seqPPS "task-1" 5 600 3
      = ⟨3, ((3 - 1 : ℕ) : ℚ) * 5, some (.completed (seqPPS (3 - 1)))⟩
    ∧ wait_for_completion_async seqPPS "task-1" 5 600 3
      = wait_for_completion seqPPS "task-1" 5 600 3 :=
  wait_for_completion_success seqPPS "task-1" 5 600 3 3 (by decide) (by decide)
    (by decide) (by decide) (by decide) (by decide)

/-- C2 counterexample.  A fetch sequence whose first fetch is failed
with server message boom makes wait_for_completion raise KlingAPIError,
the very same exception class used for envelope errors, with code -1
and empty request id; no field of the raised error carries the task id
task-123. -/
theorem failed_fetch_error_lacks_task_id :
    (wait_for_completion failStream "task-123" 5 600 4).outcome
      = some (.apiError ⟨"boom", -1, ""⟩)
    ∧ ¬ ("task-123".data <:+: "boom".data)
    ∧ ¬ ("task-123".data <:+: "".data) := by
  refine ⟨rfl, ?_, ?_⟩ <;> decide

/-- C2 amended.  If the first fetch reports the failed status, the loop
stops after exactly one fetch with no suspension and raises
KlingAPIError, not a dedicated task-failure class, whose message is the
server-supplied message when that is non-empty and the generic message
Task failed otherwise, whose code is -1 and whose request id is empty;
the task id is not part of the raised error. -/
theorem wait_for_completion_failed_first (g : ℕ → TaskResponse) (t : String)
    (i T : ℚ) (fuel : ℕ) (hfail : (g 0).task_status = "failed") (hfuel : 0 < fuel) :
    wait_for_completion g t i T fuel
      = ⟨1, 0, some (.apiError
          ⟨pyOrString (g 0).task_status_msg "Task failed", -1, ""⟩)⟩ := by
  obtain ⟨m, rfl⟩ : ∃ m, fuel = m + 1 := ⟨fuel - 1, by omega⟩
  unfold wait_for_completion
  simp only [waitPoll]
  rw [if_neg (by rw [hfail]; decide), if_pos hfail]

/-- Witness for C2 amended on the failed stream. -/
theorem wait_for_completion_failed_first_witness :
    wait_for_completion failStream "task-123" 5 600 4
      = ⟨1, 0, some (.apiError
          ⟨pyOrString (failStream 0).task_status_msg "Task failed", -1, ""⟩)⟩ :=
  wait_for_completion_failed_first failStream "task-123" 5 600 4 (by decide)
    (by decide)

unseal Rat.add in
/-- C3 counterexample.  With interval 5 and timeout 3, a timeout not
exceeding one interval, the loop performs two fetches before raising
the timeout outcome, not exactly one as claimed. -/
theorem timeout_below_interval_two_fetches :
    (wait_for_completion pendStream "task-1" 5 3 10).fetches = 2
    ∧ (wait_for_completion pendStream "task-1" 5 3 10).outcome
        = some (.timedOut "task-1" 3) := by
  constructor <;> decide

/-- C3 amended.  On a fetch sequence that never reaches a terminal
status, with positive interval i and any timeout T, the engine always
terminates by raising the timeout outcome after exactly
ceil of T over i, taken at least zero, plus one fetches: one fetch when
T is at most zero, two fetches when T is positive but at most i (within
the plus or minus one allowance around ceil of T over i), and
ceil of T over i plus one fetches when i is less than T; never zero
fetches. -/
theorem wait_for_completion_times_out (g : ℕ → TaskResponse) (t : String)
    (i T : ℚ) (fuel : ℕ)
    (hg : ∀ m, (g m).task_status ≠ "succeed" ∧ (g m).task_status ≠ "failed")
    (hi : 0 < i) (hfuel : (⌈T / i⌉).toNat < fuel) :
    wait_for_completion g t i T fuel
      = ⟨(⌈T / i⌉).toNat + 1, (((⌈T / i⌉).toNat : ℕ) : ℚ) * i,
          some (.timedOut t T)⟩ := by
  have h0 : (0 : ℚ) = ((0 : ℕ) : ℚ) * i := by push_cast; ring
  unfold wait_for_completion
  rw [h0]
  have := waitPoll_pending_times_out g t i T hg hi fuel 0 (by omega)
  simpa using this

unseal Rat.mul Rat.inv Rat.add in
/-- Witness for C3 amended: interval 5, timeout 3, so the ceiling is 1
and the loop performs two fetches before timing out. -/
theorem wait_for_completion_times_out_witness :
    wait_for_completion pendStream "task-1" 5 3 10
      = ⟨(⌈(3 : ℚ) / 5⌉).toNat + 1, (((⌈(3 : ℚ) / 5⌉).toNat : ℕ) : ℚ) * 5,
          some (.timedOut "task-1" 3)⟩ :=
  wait_for_completion_times_out pendStream "task-1" 5 3 10 pendStream_nonterminal
    (by decide) (by decide)

/-- C4.  An iteration whose fetch reports any status other than the two
terminal strings neither returns nor raises on account of that status:
provided the timeout budget is not yet exhausted and the interval is
non-negative, the loop simply sleeps one interval and continues with
the next fetch. -/
theorem unknown_status_keeps_polling (g : ℕ → TaskResponse) (t : String)
    (i T : ℚ) (fuel n : ℕ) (slept : ℚ)
    (h1 : (g n).task_status ≠ "succeed") (h2 : (g n).task_status ≠ "failed")
    (hT : slept < T) (hi : 0 ≤ i) :
    waitPoll g t i T (fuel + 1) n slept = waitPoll g t i T fuel (n + 1) (slept + i) := by
  simp only [waitPoll]
  rw [if_neg h1, if_neg h2, if_neg (not_le.mpr hT), if_neg (not_lt.mpr hi)]

/-- Witness for C4 on the unrecognized status string queued. -/
theorem unknown_status_keeps_polling_witness :
    waitPoll queuedStream "task-2" 5 600 (1 + 1) 0 0
      = waitPoll queuedStream "task-2" 5 600 1 (0 + 1) (0 + 5) :=
  unknown_status_keeps_polling queuedStream "task-2" 5 600 1 0 0 (by decide)
    (by decide) (by decide) (by decide)

/-- With interval zero the loop never validates, never sleeps for any
positive time, and keeps fetching while the budget is unexhausted. -/
theorem waitPoll_zero_interval (g : ℕ → TaskResponse) (t : String) (T : ℚ)
    (hg : ∀ m, (g m).task_status ≠ "succeed" ∧ (g m).task_status ≠ "failed") :
    ∀ fuel n slept, slept < T →
      waitPoll g t 0 T fuel n slept = ⟨n + fuel, slept, none⟩ := by
  intro fuel
  induction fuel with
  | zero => intro n slept h; rfl
  | succ fuel ih =>
    intro n slept h
    obtain ⟨h1, h2⟩ := hg n
    simp only [waitPoll]
    rw [if_neg h1, if_neg h2, if_neg (not_le.mpr h), if_neg (by norm_num),
      add_zero, ih (n + 1) slept h]
    have : n + 1 + fuel = n + (fuel + 1) := by omega
    rw [this]

unseal Rat.add in
/-- C5 counterexample.  With interval 0 and timeout 1, the engine does
not fail fast: after a fuel of three iterations it has performed three
fetches with no configuration error and no outcome, busy-looping. -/
theorem zero_interval_busy_loops :
    (wait_for_completion pendStream "task-1" 0 1 3).fetches = 3
    ∧ (wait_for_completion pendStream "task-1" 0 1 3).outcome = none := by
  constructor <;> decide

/-- C5 amended.  wait_for_completion performs no validation of the poll
interval.  On a never-terminal stream with positive timeout: a negative
interval is only detected by the sleep after the first fetch, raising
ValueError there, and an interval of zero busy-loops, performing one
fetch per unit of fuel with no suspension and no error. -/
theorem nonpositive_interval_not_validated (g : ℕ → TaskResponse) (t : String)
    (T : ℚ)
    (hg : ∀ m, (g m).task_status ≠ "succeed" ∧ (g m).task_status ≠ "failed")
    (hT : 0 < T) :
    (∀ i : ℚ, i < 0 → ∀ fuel : ℕ, 0 < fuel →
      wait_for_completion g t i T fuel = ⟨1, 0, some .sleepValueError⟩)
    ∧ (∀ fuel : ℕ, wait_for_completion g t 0 T fuel = ⟨fuel, 0, none⟩) := by
  constructor
  · intro i hi fuel hfuel
    obtain ⟨m, rfl⟩ : ∃ m, fuel = m + 1 := ⟨fuel - 1, by omega⟩
    obtain ⟨h1, h2⟩ := hg 0
    unfold wait_for_completion
    simp only [waitPoll]
    rw [if_neg h1, if_neg h2, if_neg (not_le.mpr hT), if_pos hi]
  · intro fuel
    have := waitPoll_zero_interval g t T hg fuel 0 0 hT
    simpa [wait_for_completion] using this

/-- Witness for C5 amended at intervals -1 and 0 with timeout 1. -/
theorem nonpositive_interval_not_validated_witness :
    wait_for_completion pendStream "task-1" (-1) 1 3 = ⟨1, 0, some .sleepValueError⟩
    ∧ wait_for_completion pendStream "task-1" 0 1 3 = ⟨3, 0, none⟩ :=
  ⟨(nonpositive_interval_not_validated pendStream "task-1" 1 pendStream_nonterminal
      (by decide)).1 (-1) (by decide) 3 (by decide),
   (nonpositive_interval_not_validated pendStream "task-1" 1 pendStream_nonterminal
      (by decide)).2 3⟩

/-- C6.  A body parsing to an envelope with all three fields present
and nonzero code makes the decoder raise KlingAPIError carrying exactly
that code, message and request id, never returning; with code zero the
parsed envelope is returned without raising. -/
theorem handle_response_envelope (c : Int) (m r : String) (hc : c ≠ 0) :
    handle_response (some ⟨some c, some m, some r⟩) = .raised ⟨m, c, r⟩
    ∧ handle_response (some ⟨some 0, some m, some r⟩)
        = .ok ⟨some 0, some m, some r⟩ := by
  constructor
  · simp [handle_response, hc]
  · simp [handle_response]

/-- Witness for C6 on the envelope with code 51004, message
insufficient balance and request id abc. -/
theorem handle_response_envelope_witness :
    handle_response (some ⟨some 51004, some "insufficient balance", some "abc"⟩)
      = .raised ⟨"insufficient balance", 51004, "abc"⟩
    ∧ handle_response (some ⟨some 0, some "insufficient balance", some "abc"⟩)
      = .ok ⟨some 0, some "insufficient balance", some "abc"⟩ :=
  handle_response_envelope 51004 "insufficient balance" "abc" (by decide)

/-- C7 counterexample.  An unparseable body raises plain KlingAPIError
with message Invalid JSON response from API, code -1 and empty request
id, and the perfectly well-formed envelope with code -1 and that very
message raises the identical error value: the malformed-body failure is
not a classification the caller can distinguish from an application
envelope error. -/
theorem malformed_body_indistinguishable :
    handle_response none = .raised ⟨"Invalid JSON response from API", -1, ""⟩
    ∧ handle_response
        (some ⟨some (-1), some "Invalid JSON response from API", some ""⟩)
      = .raised ⟨"Invalid JSON response from API", -1, ""⟩ := by
  constructor <;> decide

/-- C7 amended.  An unparseable body fails, but with the same
KlingAPIError class used for envelope errors, carrying the fixed
message, code -1 and an empty request id, rather than a distinct
transport or malformed-response classification. -/
theorem malformed_body_raises_api_error :
    handle_response none = .raised ⟨"Invalid JSON response from API", -1, ""⟩ :=
  rfl

/-- C8 counterexample.  Supplying a single reference image through the
plural images argument routes to the multi-image endpoint and shape,
although only one image, not more than one, was supplied; the two
endpoints differ. -/
theorem single_element_images_routes_multi :
    i2v_create none (some [ImageArg.str "a"]) none
      = some (multi_endpoint, I2VBody.multi [⟨"a"⟩])
    ∧ multi_endpoint ≠ single_endpoint := by
  constructor <;> decide

/-- C8 amended.  The routing of ImageToVideoAPI.create is decided
purely by Python truthiness of the plural image arguments: whenever
images or image_list yields a non-empty list of at most four elements,
the request goes to the multi-image endpoint with the image_list shape
holding the normalized images, even when that list has exactly one
element; whenever both plural arguments are absent or empty, the
request goes to the single-image endpoint with the single-image shape
carrying the image argument. -/
theorem i2v_create_routing (image : Option String)
    (images image_list : Option (List ImageArg)) (l : List ImageArg) :
    (pyOrList images image_list = some l → l ≠ [] → l.length ≤ 4 →
      i2v_create image images image_list
        = some (multi_endpoint, .multi (l.map normalizeImage)))
    ∧ (pyTruthyList (pyOrList images image_list) = false →
      i2v_create image images image_list = some (single_endpoint, .single image)) := by
  constructor
  · intro he hne hlen
    have htruthy : pyTruthyList (some l) = true := by
      cases l with
      | nil => exact absurd rfl hne
      | cons a tl => rfl
    have hlen1 : 1 ≤ l.length := by
      cases l with
      | nil => exact absurd rfl hne
      | cons a tl => simp
    simp [i2v_create, he, htruthy, hlen1, hlen]
  · intro hf
    simp [i2v_create, hf]

/-- Witness for C8 amended: two image URLs route to the multi-image
endpoint and shape, one bare image string routes to the single-image
endpoint and shape. -/
theorem i2v_create_routing_witness :
    i2v_create none (some [ImageArg.str "a", ImageArg.str "b"]) none
      = some (multi_endpoint, .multi ([ImageArg.str "a", ImageArg.str "b"].map normalizeImage))
    ∧ i2v_create (some "img") none none
      = some (single_endpoint, .single (some "img")) :=
  ⟨(i2v_create_routing none (some [ImageArg.str "a", ImageArg.str "b"]) none
      [ImageArg.str "a", ImageArg.str "b"]).1 rfl (by decide) (by decide),
   (i2v_create_routing (some "img") none none []).2 rfl⟩

/-- C9.  Evidence of the divergence: closing a freshly constructed
client with close, whose docstring says it closes the HTTP clients,
leaves the non-blocking client open; close is nevertheless idempotent,
and only a further close_async releases the remaining client. -/
theorem close_leaks_async_client :
    (BaseAPIClient.mk_open.close).async_client_open = true
    ∧ BaseAPIClient.mk_open.close.close = BaseAPIClient.mk_open.close
    ∧ (BaseAPIClient.mk_open.close.close_async).async_client_open = false
    ∧ KlingClient.close BaseAPIClient.mk_open = BaseAPIClient.mk_open.close := by
  refine ⟨rfl, rfl, rfl, rfl⟩

/-- C10.  In every loop iteration the two terminal-status checks come
before the timeout check: whatever the elapsed time, even past the
budget, a fetch reporting succeed is returned and a fetch reporting
failed raises the task failure, never the timeout outcome; the
asynchronous loop body is identical. -/
theorem terminal_beats_timeout (g : ℕ → TaskResponse) (t : String) (i T : ℚ)
    (fuel n : ℕ) (slept : ℚ) :
    ((g n).task_status = "succeed" →
      waitPoll g t i T (fuel + 1) n slept
        = ⟨n + 1, slept, some (.completed (g n))⟩)
    ∧ ((g n).task_status = "failed" →
      waitPoll g t i T (fuel + 1) n slept
        = ⟨n + 1, slept, some (.apiError
            ⟨pyOrString (g n).task_status_msg "Task failed", -1, ""⟩)⟩)
    ∧ waitPollAsync g t i T (fuel + 1) n slept = waitPoll g t i T (fuel + 1) n slept := by
  refine ⟨fun hs => ?_, fun hf => ?_, waitPollAsync_eq g t i T (fuel + 1) n slept⟩
  · simp only [waitPoll]
    rw [if_pos hs]
  · simp only [waitPoll]
    rw [if_neg (by rw [hf]; decide), if_pos hf]

/-- Witness for C10: with timeout 1 and elapsed time already 100, a
succeeding fetch is still returned and a failing fetch still raises the
task failure. -/
theorem terminal_beats_timeout_witness :
    waitPoll succStream "task-3" 5 1 (0 + 1) 0 100
      = ⟨0 + 1, 100, some (.completed (succStream 0))⟩
    ∧ waitPoll failStream "task-123" 5 1 (0 + 1) 0 100
      = ⟨0 + 1, 100, some (.apiError
          ⟨pyOrString (failStream 0).task_status_msg "Task failed", -1, ""⟩)⟩ :=
  ⟨(terminal_beats_timeout succStream "task-3" 5 1 0 0 100).1 (by decide),
   (terminal_beats_timeout failStream "task-123" 5 1 0 0 100).2.1 (by decide)⟩
